import Mathlib

/-!
Verification development for the best-of-n sampling skill.

The TypeScript sources are shallowly embedded: pure string/JSON processing is
translated directly; network calls (provider generation requests, judge model
requests) are modelled as explicit oracle parameters carrying the outcome the
call would have produced; the cooperative-concurrency orchestration is
modelled by an explicit completion-order parameter.  Machine numbers are
modelled by `ℚ` (JS `number`) and `ℕ`/`ℤ` where the source only ever holds
integers.
-/

set_option linter.unusedVariables false

namespace BestOfN

/-! ### JSON values and a model of `JSON.parse` -/

/-- Runtime JSON values, as produced by `JSON.parse`. -/
inductive JsonValue where
  | null
  | bool (b : Bool)
  | num (q : ℚ)
  | str (s : String)
  | arr (elems : List JsonValue)
  | obj (fields : List (String × JsonValue))

/-- JS whitespace characters (the common ones; exotic Unicode whitespace is
not modelled, no claim depends on it). -/
def jsWs (c : Char) : Bool :=
  c = ' ' || c = '\t' || c = '\n' || c = '\r'

/-- Drop leading whitespace. -/
def skipWs : List Char → List Char
  | c :: cs => if jsWs c then skipWs cs else c :: cs
  | [] => []

/-- JS `String.prototype.trim` (remove whitespace from both ends),
implemented over the character list so that it reduces definitionally. -/
def jsTrim (s : String) : String :=
  String.mk (((s.data.dropWhile jsWs).reverse.dropWhile jsWs).reverse)

/-- JS `String.prototype.startsWith`, over the character list. -/
def strStartsWith (s pre : String) : Bool :=
  pre.data.isPrefixOf s.data

/-- Value of a digit string, most significant first. -/
def digitsToNat (ds : List Char) : ℕ :=
  ds.foldl (fun a c => a * 10 + (c.toNat - 48)) 0

/-- Split a leading run of decimal digits. -/
def spanDigits (cs : List Char) : List Char × List Char :=
  (cs.takeWhile (·.isDigit), cs.dropWhile (·.isDigit))

/-- Parse a JSON number (sign, integer part, fraction, exponent) into `ℚ`. -/
def parseNumber (cs : List Char) : Option (ℚ × List Char) :=
  let signed : Bool × List Char :=
    match cs with
    | '-' :: t => (true, t)
    | _ => (false, cs)
  let ds := spanDigits signed.2
  if ds.1 = [] then none
  else
    let mag1 : ℚ := (digitsToNat ds.1 : ℚ)
    let withFrac : ℚ × List Char :=
      match ds.2 with
      | '.' :: t =>
        let fs := spanDigits t
        (mag1 + (digitsToNat fs.1 : ℚ) / (10 : ℚ) ^ fs.1.length, fs.2)
      | _ => (mag1, ds.2)
    let withExp : ℚ × List Char :=
      match withFrac.2 with
      | 'e' :: t =>
        let es : ℤ × List Char :=
          match t with
          | '+' :: u => (1, u)
          | '-' :: u => (-1, u)
          | _ => (1, t)
        let ev := spanDigits es.2
        (withFrac.1 * (10 : ℚ) ^ (es.1 * (digitsToNat ev.1 : ℤ)), ev.2)
      | 'E' :: t =>
        let es : ℤ × List Char :=
          match t with
          | '+' :: u => (1, u)
          | '-' :: u => (-1, u)
          | _ => (1, t)
        let ev := spanDigits es.2
        (withFrac.1 * (10 : ℚ) ^ (es.1 * (digitsToNat ev.1 : ℤ)), ev.2)
      | _ => withFrac
    some (if signed.1 then -withExp.1 else withExp.1, withExp.2)

/-- Value of a hex digit, if any. -/
def hexVal (c : Char) : Option ℕ :=
  if '0' ≤ c ∧ c ≤ '9' then some (c.toNat - 48)
  else if 'a' ≤ c ∧ c ≤ 'f' then some (c.toNat - 87)
  else if 'A' ≤ c ∧ c ≤ 'F' then some (c.toNat - 55)
  else none

/-- Parse the body of a JSON string literal (after the opening quote),
processing escapes. -/
def parseStringBody (fuel : ℕ) (cs : List Char) (acc : List Char) :
    Option (String × List Char) :=
  match fuel, cs with
  | 0, _ => none
  | _, [] => none
  | f + 1, c :: rest =>
    if c = '"' then some (String.mk acc.reverse, rest)
    else if c = '\\' then
      match rest with
      | [] => none
      | e :: rest2 =>
        if e = 'u' then
          match rest2 with
          | h1 :: h2 :: h3 :: h4 :: rest3 =>
            match hexVal h1, hexVal h2, hexVal h3, hexVal h4 with
            | some v1, some v2, some v3, some v4 =>
              parseStringBody f rest3
                (Char.ofNat (((v1 * 16 + v2) * 16 + v3) * 16 + v4) :: acc)
            | _, _, _, _ => none
          | _ => none
        else
          let esc : Option Char :=
            if e = '"' then some '"'
            else if e = '\\' then some '\\'
            else if e = '/' then some '/'
            else if e = 'n' then some '\n'
            else if e = 't' then some '\t'
            else if e = 'r' then some '\r'
            else if e = 'b' then some (Char.ofNat 8)
            else if e = 'f' then some (Char.ofNat 12)
            else none
          match esc with
          | some ch => parseStringBody f rest2 (ch :: acc)
          | none => none
    else parseStringBody f rest (c :: acc)

mutual

/-- Recursive-descent JSON value parser (fuelled; the fuel used at top level
is ample for any input). -/
def parseValue (fuel : ℕ) (cs : List Char) : Option (JsonValue × List Char) :=
  match fuel with
  | 0 => none
  | f + 1 =>
    match skipWs cs with
    | [] => none
    | c :: rest =>
      if c = '\x7b' then parseObjFields f rest []
      else if c = '[' then parseArrElems f rest []
      else if c = '"' then
        (parseStringBody f rest []).map (fun p => (.str p.1, p.2))
      else if c = 't' then
        match rest with
        | 'r' :: 'u' :: 'e' :: rr => some (.bool true, rr)
        | _ => none
      else if c = 'f' then
        match rest with
        | 'a' :: 'l' :: 's' :: 'e' :: rr => some (.bool false, rr)
        | _ => none
      else if c = 'n' then
        match rest with
        | 'u' :: 'l' :: 'l' :: rr => some (.null, rr)
        | _ => none
      else
        (parseNumber (c :: rest)).map (fun p => (.num p.1, p.2))

/-- Parse the members of a JSON object (after the opening brace). -/
def parseObjFields (fuel : ℕ) (cs : List Char) (acc : List (String × JsonValue)) :
    Option (JsonValue × List Char) :=
  match fuel with
  | 0 => none
  | f + 1 =>
    match skipWs cs with
    | [] => none
    | c :: rest =>
      if c = '\x7d' then some (.obj acc.reverse, rest)
      else if c = '"' then
        match parseStringBody f rest [] with
        | none => none
        | some (key, r1) =>
          match skipWs r1 with
          | ':' :: r2 =>
            match parseValue f r2 with
            | none => none
            | some (v, r3) =>
              match skipWs r3 with
              | ',' :: r4 => parseObjFields f r4 ((key, v) :: acc)
              | '\x7d' :: r4 => some (.obj ((key, v) :: acc).reverse, r4)
              | _ => none
          | _ => none
      else none

/-- Parse the elements of a JSON array (after the opening bracket). -/
def parseArrElems (fuel : ℕ) (cs : List Char) (acc : List JsonValue) :
    Option (JsonValue × List Char) :=
  match fuel with
  | 0 => none
  | f + 1 =>
    match skipWs cs with
    | [] => none
    | c :: rest =>
      if c = ']' then some (.arr acc.reverse, rest)
      else
        match parseValue f (c :: rest) with
        | none => none
        | some (v, r1) =>
          match skipWs r1 with
          | ',' :: r2 => parseArrElems f r2 (v :: acc)
          | ']' :: r2 => some (.arr (v :: acc).reverse, r2)
          | _ => none

end

/-- Model of `JSON.parse`: parse a complete JSON document, rejecting trailing
garbage (returns `none` where `JSON.parse` would throw). -/
def jsonParse (s : String) : Option JsonValue :=
  match parseValue (s.data.length + 1) s.data with
  | some (v, rest) => if skipWs rest = [] then some v else none
  | none => none

/-! ### extractJson (per-model-synthesis, lines 118-143) -/

/-- Strip markdown code fencing, mirroring the two regex replaces
`replace(/^```(?:json)?\s*\n?/, '')` and `replace(/\n?```\s*$/, '')`
(the caller has checked that the string starts with three backticks). -/
def stripFences (s : String) : String :=
  let t0 := s.drop 3
  let t1 := if strStartsWith t0 "json" then t0.drop 4 else t0
  let t2 := String.mk (t1.data.dropWhile jsWs)
  let u := t2.data.reverse
  let u1 := u.dropWhile jsWs
  if ("```".data).isPrefixOf u1 then
    let u2 := u1.drop 3
    let u3 := match u2 with
      | '\n' :: r => r
      | _ => u2
    String.mk u3.reverse
  else t2

/-- Index of the first `{` in the text, if any. -/
def firstBraceIdx (cs : List Char) : Option ℕ :=
  cs.findIdx? (· = '\x7b')

/-- Index of the last `}` in the text, if any. -/
def lastBraceIdx (cs : List Char) : Option ℕ :=
  (cs.reverse.findIdx? (· = '\x7d')).map (fun i => cs.length - 1 - i)

/-- Tolerant JSON extraction (three strategies: direct parse, strip markdown
fences, outermost brace pair), mirroring `extractJson`. -/
def extractJson (raw : String) : Option JsonValue :=
  match jsonParse (jsTrim raw) with
  | some v => some v
  | none =>
    let cleaned := jsTrim raw
    let fenced : Option JsonValue :=
      if strStartsWith cleaned "```" then jsonParse (stripFences cleaned) else none
    match fenced with
    | some v => some v
    | none =>
      match firstBraceIdx raw.data, lastBraceIdx raw.data with
      | some i, some j =>
        if i < j then jsonParse (String.mk ((raw.data.drop i).take (j + 1 - i)))
        else none
      | _, _ => none

/-! ### Per-model judge data model (per-model-synthesis.ts) -/

/-- One successful model invocation, as handed to the per-model judge
(`SampleResult` in per-model-synthesis.ts).  `index` is the dispatch ordinal
(0-based position within the sample batch). -/
structure SampleResult where
  index : ℕ
  response : String
  latencyMs : ℕ
  tokensUsed : Option ℕ
deriving DecidableEq

/-- Result of the selection-mode judge (`PerModelSynthesisResult`).  The JS
field `bestIndex` is a plain `number`, so it is modelled by `ℚ`; the three
point lists are runtime JSON array elements (the TS `string[]` cast is not
checked at runtime). -/
structure PerModelSynthesisResult where
  bestIndex : ℚ
  comparisonMarkdown : String
  consistentPoints : List JsonValue
  uniquePoints : List JsonValue
  contradictions : List JsonValue

/-- Result of the brainstorm-mode extraction (`BrainstormResult`). -/
structure BrainstormResult where
  mergedIdeas : String
  comparisonMarkdown : String
deriving DecidableEq

/-- Field access `parsed.key` on a `JSON.parse` result (on duplicate keys the
last occurrence wins, as in JS). -/
def jsonGet (j : JsonValue) (key : String) : Option JsonValue :=
  match j with
  | .obj fields => fields.foldl (fun acc f => if f.1 = key then some f.2 else acc) none
  | _ => none

/-- The coercion `(x as string) || ''`: string values pass through, everything
else is modelled as `''` (no claim inspects a non-string `reasoning`). -/
def jsStringField (v : Option JsonValue) : String :=
  match v with
  | some (.str s) => s
  | _ => ""

/-- The guard `Array.isArray(x) ? x : []`. -/
def jsArrayField (v : Option JsonValue) : List JsonValue :=
  match v with
  | some (.arr xs) => xs
  | _ => []

/-- The parsed judge verdict (anonymous return type of
`parseComparisonResponse`). -/
structure ParsedComparison where
  bestIndex : ℚ
  reasoning : String
  consistentPoints : List JsonValue
  uniquePoints : List JsonValue
  contradictions : List JsonValue

/-- Parse and validate a judge response (per-model-synthesis lines 145-167):
extract JSON, require `best_index` to be a number in `[1, sampleCount]`,
convert it to 0-based. -/
def parseComparisonResponse (raw : String) (sampleCount : ℕ) :
    Option ParsedComparison :=
  match extractJson raw with
  | none => none
  | some parsed =>
    match jsonGet parsed "best_index" with
    | some (.num bestIndex) =>
      if bestIndex < 1 ∨ (sampleCount : ℚ) < bestIndex then none
      else some {
        bestIndex := bestIndex - 1
        reasoning := jsStringField (jsonGet parsed "reasoning")
        consistentPoints := jsArrayField (jsonGet parsed "consistent_points")
        uniquePoints := jsArrayField (jsonGet parsed "unique_points")
        contradictions := jsArrayField (jsonGet parsed "contradictions") }
    | _ => none

/-- JS number-to-string conversion, exact on integers (the only case any
claim's statement evaluates; JS decimal rendering of fractional values is
not reproduced). -/
def jsNumToString (q : ℚ) : String :=
  if q.den = 1 then toString q.num else toString q.num ++ "/" ++ toString q.den

/-- Shallow JS template stringification of a JSON leaf (used only inside
free-text markdown bullets built from judge output). -/
def jsDisplayShallow (v : JsonValue) : String :=
  match v with
  | .null => "null"
  | .bool true => "true"
  | .bool false => "false"
  | .num q => jsNumToString q
  | .str s => s
  | .arr _ => ""
  | .obj _ => "[object Object]"

/-- JS template stringification `${p}` of a judge-supplied JSON value
(nested array elements are rendered shallowly; no claim inspects them). -/
def jsDisplay (v : JsonValue) : String :=
  match v with
  | .null => "null"
  | .bool true => "true"
  | .bool false => "false"
  | .num q => jsNumToString q
  | .str s => s
  | .arr xs => String.intercalate "," (xs.map jsDisplayShallow)
  | .obj _ => "[object Object]"

/-- Render a bullet list `- p\n` per point. -/
def bulletList (points : List JsonValue) : String :=
  points.foldl (fun acc p => acc ++ "- " ++ jsDisplay p ++ "\n") ""

/-- Build the comparison report (`formatComparisonMarkdown`,
per-model-synthesis lines 169-201). -/
def formatComparisonMarkdown (modelName : String) (bestIndex : ℚ)
    (sampleCount : ℕ) (reasoning : String)
    (consistentPoints uniquePoints contradictions : List JsonValue) : String :=
  let md0 := "## Comparison notes\n\n**Best response:** Sample "
    ++ jsNumToString (bestIndex + 1) ++ " of " ++ toString sampleCount
    ++ "\n\n**Why:** " ++ reasoning ++ "\n\n"
  let md1 := if consistentPoints.length > 0 then
      md0 ++ "### Consistent across samples (high confidence)\n\n"
        ++ bulletList consistentPoints ++ "\n"
    else md0
  let md2 := if uniquePoints.length > 0 then
      md1 ++ "### Unique to one sample (verify independently)\n\n"
        ++ bulletList uniquePoints ++ "\n"
    else md1
  let md3 := if contradictions.length > 0 then
      md2 ++ "### Contradictions between samples\n\n"
        ++ bulletList contradictions ++ "\n"
    else md2
  md3

/-- The final deterministic fallback loop (per-model-synthesis lines 281-288):
running index of the longest response seen so far. -/
def findLongestIdxAux : List SampleResult → ℕ → ℕ → ℕ → ℕ
  | [], _, bestIdx, _ => bestIdx
  | s :: rest, i, bestIdx, bestLen =>
    if s.response.length > bestLen then
      findLongestIdxAux rest (i + 1) i s.response.length
    else
      findLongestIdxAux rest (i + 1) bestIdx bestLen

/-- Index of the longest response (ties keep the earliest, as in the source
loop with strict `>`). -/
def findLongestIdx (samples : List SampleResult) : ℕ :=
  findLongestIdxAux samples 0 0 0

/-- The longest-response fallback result (per-model-synthesis lines 280-304). -/
def longestFallback (modelName : String) (samples : List SampleResult) :
    PerModelSynthesisResult :=
  let longestIdx := findLongestIdx samples
  { bestIndex := (longestIdx : ℚ)
    comparisonMarkdown := formatComparisonMarkdown modelName (longestIdx : ℚ)
      samples.length
      "Fallback: selected longest response (comparison model unavailable)"
      [] [] []
    consistentPoints := []
    uniquePoints := []
    contradictions := [] }

/-- JS truthiness of the `raw` variable (`string | null`): `null` and the
empty string are falsy. -/
def jsTruthyStr (r : Option String) : Bool :=
  match r with
  | some s => s ≠ ""
  | none => false

/-- The `raw` text available after the two judge attempts (per-model-synthesis
lines 228-255): the primary response if truthy, else the secondary response
if the secondary call produced one, else whatever the primary left behind. -/
def chooseRawResponse (primary secondary : Option String) : Option String :=
  if jsTruthyStr primary then primary
  else match secondary with
    | some t => some t
    | none => primary

/-- Parse the chosen judge text and build the result, falling back to the
longest response when there is no usable text or the parse is rejected
(per-model-synthesis lines 257-304). -/
def compareWithRaw (modelName : String) (samples : List SampleResult)
    (raw2 : Option String) : PerModelSynthesisResult :=
  if jsTruthyStr raw2 then
    match raw2 with
    | some s =>
      match parseComparisonResponse s samples.length with
      | some p =>
        { bestIndex := p.bestIndex
          comparisonMarkdown := formatComparisonMarkdown modelName
            p.bestIndex samples.length p.reasoning
            p.consistentPoints p.uniquePoints p.contradictions
          consistentPoints := p.consistentPoints
          uniquePoints := p.uniquePoints
          contradictions := p.contradictions }
      | none => longestFallback modelName samples
    | none => longestFallback modelName samples
  else longestFallback modelName samples

/-- Selection-mode judge (`compareModelSamples`, per-model-synthesis lines
206-305).  The two judge network calls are oracle parameters: `primary` /
`secondary` hold the text the call returned, or `none` where the call threw.
The source tries the secondary judge only when `raw` is still falsy after the
primary attempt, then parses whatever text it has, falling back to the
longest response; an `Except.error` models the `throw` on an empty sample
list. -/
def compareModelSamples (modelName originalPrompt : String)
    (samples : List SampleResult) (primary secondary : Option String) :
    Except String PerModelSynthesisResult :=
  if samples.length = 0 then
    .error ("No samples to compare for " ++ modelName)
  else if samples.length = 1 then
    .ok { bestIndex := 0
          comparisonMarkdown :=
            "## Comparison notes\n\nOnly one sample — no comparison needed.\n"
          consistentPoints := []
          uniquePoints := []
          contradictions := [] }
  else
    .ok (compareWithRaw modelName samples (chooseRawResponse primary secondary))

/-- Last starting index of `pat` inside `hay` (JS `String.lastIndexOf`). -/
def lastOccurrenceIdx (hay pat : List Char) : Option ℕ :=
  ((List.range (hay.length + 1)).filter (fun i => pat.isPrefixOf (hay.drop i))).getLast?

/-- `Array.prototype.join(sep)`. -/
def joinSep (sep : String) : List String → String
  | [] => ""
  | [x] => x
  | x :: xs => x ++ sep ++ joinSep sep xs

/-- The brainstorm total-failure fallback body (per-model-synthesis lines
378-381): every sample's full text, labelled by 1-based POSITION in the
successful-samples list. -/
def brainstormFallbackBody (samples : List SampleResult) : String :=
  joinSep "\n\n---\n\n"
    (samples.enum.map
      (fun p => "**From sample " ++ toString (p.1 + 1) ++ ":**\n\n" ++ p.2.response))

/-- Brainstorm-mode extraction (`brainstormModelSamples`, per-model-synthesis
lines 311-387), with the two judge calls as oracles as in
`compareModelSamples`. -/
def brainstormModelSamples (modelName originalPrompt : String)
    (samples : List SampleResult) (primary secondary : Option String) :
    Except String BrainstormResult :=
  match samples with
  | [] => .error ("No samples for brainstorm extraction from " ++ modelName)
  | [s] =>
    .ok { mergedIdeas := s.response
          comparisonMarkdown :=
            "## Extraction notes\n\nOnly one sample — no merging needed.\n" }
  | _ =>
    let raw1 : Option String := primary
    let raw2 : Option String :=
      if jsTruthyStr raw1 then raw1
      else match secondary with
        | some t => some t
        | none => raw1
    if jsTruthyStr raw2 then
      match raw2 with
      | some s =>
        match lastOccurrenceIdx s.data ("\n---\n".data) with
        | some separatorIdx =>
          .ok { mergedIdeas := jsTrim (String.mk (s.data.take separatorIdx))
                comparisonMarkdown := "## Extraction notes\n\n"
                  ++ jsTrim (String.mk (s.data.drop (separatorIdx + 5))) ++ "\n" }
        | none =>
          .ok { mergedIdeas := jsTrim s
                comparisonMarkdown :=
                  "## Extraction notes\n\nIdeas extracted and merged across all samples.\n" }
      | none =>
        .ok { mergedIdeas := brainstormFallbackBody samples
              comparisonMarkdown :=
                "## Extraction notes\n\nFallback: concatenated all samples (extraction model unavailable).\n" }
    else
      .ok { mergedIdeas := brainstormFallbackBody samples
            comparisonMarkdown :=
              "## Extraction notes\n\nFallback: concatenated all samples (extraction model unavailable).\n" }

/-! ### Model configuration (scripts/models.ts) -/

/-- Provider kinds (`ModelConfig['provider']`). -/
inductive Provider where
  | openai
  | google
  | xai
  | anthropic
  | openaiDeep
  | geminiDeep
deriving DecidableEq

/-- `ModelConfig['type']`. -/
inductive ModelType where
  | api
  | browser
deriving DecidableEq

/-- Per-model static configuration (`ModelConfig`). -/
structure ModelConfig where
  provider : Provider
  model_id : String
  type : ModelType
  display_name : Option String := none
  reasoning : Option Bool := none
  max_tokens : Option ℕ := none
  requires_browser : Option Bool := none
  async : Option Bool := none
  slow : Option Bool := none
  timeout_seconds : Option ℕ := none
  deep_research : Option Bool := none
deriving DecidableEq

/-- Preset configuration (`PresetConfig` in models.ts, plus the numeric
fields the query script reads from it: `num_samples`, `temperature`,
`temperature_range`, `brainstorm`). -/
structure PresetConfig where
  description : String := ""
  models : List String := []
  timeout_seconds : Option ℕ := none
  async : Option Bool := none
  requires_browser : Option Bool := none
  num_samples : Option ℕ := none
  temperature : Option ℚ := none
  temperature_range : Option (ℚ × ℚ) := none
  brainstorm : Option Bool := none
deriving DecidableEq

/-- `Config['defaults']`. -/
structure DefaultsConfig where
  preset : String
  synthesis_depth : String
  max_tokens : ℕ
deriving DecidableEq

/-- The loaded configuration (`Config`); JS objects keyed by name are
modelled as association lists. -/
structure Config where
  presets : List (String × PresetConfig)
  models : List (String × ModelConfig)
  defaults : DefaultsConfig
deriving DecidableEq

/-- Object access `config.models[name]`. -/
def lookupModel (config : Config) (name : String) : Option ModelConfig :=
  (config.models.find? (fun p => p.1 = name)).map (·.2)

/-- Object access `config.presets[name]`. -/
def lookupPreset (config : Config) (name : String) : Option PresetConfig :=
  (config.presets.find? (fun p => p.1 = name)).map (·.2)

/-- An invocable provider SDK model instance, as returned by `createModel`. -/
inductive InvocableModel where
  | openaiResponses (model_id : String)
  | google (model_id : String)
  | xaiResponses (model_id : String)
  | anthropic (model_id : String)
deriving DecidableEq

/-- `createModel` (models.ts lines 67-99): `none` models the `null` returned
for an unknown model, a browser-type model, or a deep-research provider. -/
def createModel (modelName : String) (config : Config) : Option InvocableModel :=
  match lookupModel config modelName with
  | none => none
  | some mc =>
    if mc.type = ModelType.browser then none
    else
      match mc.provider with
      | .openai => some (.openaiResponses mc.model_id)
      | .google => some (.google mc.model_id)
      | .xai => some (.xaiResponses mc.model_id)
      | .anthropic => some (.anthropic mc.model_id)
      | .openaiDeep => none
      | .geminiDeep => none

/-- `getEligibleModels` (models.ts lines 105-114). -/
def getEligibleModels (config : Config) : List String :=
  (config.models.filter (fun p =>
    !(p.2.type = ModelType.browser || p.2.requires_browser.getD false
      || p.2.deep_research.getD false
      || p.2.provider = Provider.openaiDeep
      || p.2.provider = Provider.geminiDeep))).map (·.1)

/-- The `||` default for optional strings: falsy (`none` or empty) picks the
fallback. -/
def jsStrOr (v : Option String) (fallback : String) : String :=
  match v with
  | some s => if s = "" then fallback else s
  | none => fallback

/-- Display name resolution `config.models[name]?.display_name || name`. -/
def displayNameFor (config : Config) (name : String) : String :=
  jsStrOr ((lookupModel config name).bind (·.display_name)) name

/-! ### Single-sample query (query script lines 197-282) -/

/-- Status of one single-sample query (`SingleQueryResult['status']`). -/
inductive QueryStatus where
  | success
  | error
  | timeout
deriving DecidableEq

/-- `SingleQueryResult`. -/
structure SingleQueryResult where
  status : QueryStatus
  response : Option String := none
  error : Option String := none
  latencyMs : ℕ
  tokensUsed : Option ℕ := none
deriving DecidableEq

/-- Outcome of the one `generateText` network call, as an oracle: either the
generated text (with optional token usage), or a thrown error carrying its
JS `name` and message (an aborted call throws with name `AbortError`). -/
inductive GenOutcome where
  | ok (text : String) (totalTokens : Option ℕ)
  | threw (name message : String)
deriving DecidableEq

/-- `querySingleModel` (query script lines 207-282): resolve the model via
`createModel`, then either report the generation outcome or map the thrown
error to a tagged `error`/`timeout` result.  `latencyMs` is the measured
wall-clock latency (an oracle).  The function is total: every failure mode
is a returned value, never an exception. -/
def querySingleModel (modelName prompt : String) (config : Config)
    (timeoutMs : ℕ) (temperature : ℚ) (gen : GenOutcome) (latencyMs : ℕ) :
    SingleQueryResult :=
  match createModel modelName config with
  | none =>
    { status := .error
      error := some ("Could not create model instance for " ++ modelName)
      latencyMs := latencyMs }
  | some _ =>
    match gen with
    | .ok text totalTokens =>
      { status := .success
        response := some text
        latencyMs := latencyMs
        tokensUsed := totalTokens }
    | .threw name message =>
      if name = "AbortError" then
        { status := .timeout
          error := some ("Timeout after " ++ toString timeoutMs ++ "ms")
          latencyMs := latencyMs }
      else
        { status := .error
          error := some message
          latencyMs := latencyMs }

/-! ### Progress tracking (query script lines 80-195) -/

/-- Per-model progress entry (`ModelSampleProgress`). -/
structure ModelSampleProgress where
  modelName : String
  displayName : String
  total : ℕ
  completed : ℕ
  failed : ℕ
  comparing : Bool
  comparisonDone : Bool
deriving DecidableEq

/-- The tracker's `models` map (insertion-ordered, keyed by model name). -/
abbrev BonTrackerState := List (String × ModelSampleProgress)

/-- The `BonProgressTracker` constructor (lines 97-113). -/
def initTrackerState (modelNames : List String) (numSamples : ℕ)
    (config : Config) : BonTrackerState :=
  modelNames.map (fun name =>
    (name,
      { modelName := name
        displayName := displayNameFor config name
        total := numSamples
        completed := 0
        failed := 0
        comparing := false
        comparisonDone := false }))

/-- Mutation of the entry stored under key `k` (JS `Map.get` returning a
mutable object). -/
def updateEntry (k : String) (f : ModelSampleProgress → ModelSampleProgress) :
    BonTrackerState → BonTrackerState
  | [] => []
  | e :: t => (if e.1 = k then (e.1, f e.2) else e) :: updateEntry k f t

/-- The three mutating methods of `BonProgressTracker`
(`sampleComplete`, `setComparing`, `setComparisonDone`, lines 128-147). -/
inductive TrackerMutation where
  | sampleComplete (modelName : String) (success : Bool)
  | setComparing (modelName : String)
  | setComparisonDone (modelName : String)
deriving DecidableEq

/-- Apply one tracker method to the state. -/
def applyMutation : TrackerMutation → BonTrackerState → BonTrackerState
  | .sampleComplete n true, st =>
    updateEntry n (fun m => { m with completed := m.completed + 1 }) st
  | .sampleComplete n false, st =>
    updateEntry n (fun m => { m with failed := m.failed + 1 }) st
  | .setComparing n, st =>
    updateEntry n (fun m => { m with comparing := true }) st
  | .setComparisonDone n, st =>
    updateEntry n (fun m => { m with comparing := false, comparisonDone := true }) st

/-! ### Temperature schedule (query script lines 535-543) -/

/-- `getTemperatureForSample`: with a configured range, the midpoint for a
single sample, otherwise linear interpolation by sample ordinal; without a
range, the flat temperature. -/
def getTemperatureForSample (temperatureRange : Option (ℚ × ℚ))
    (temperature : ℚ) (numSamples : ℕ) (sampleIndex : ℕ) : ℚ :=
  match temperatureRange with
  | some r =>
    if numSamples ≤ 1 then (r.1 + r.2) / 2
    else r.1 + (r.2 - r.1) * ((sampleIndex : ℚ) / ((numSamples : ℚ) - 1))
  | none => temperature

/-! ### Orchestration (query script runQuery, lines 435-738) -/

/-- Aggregate result per model (`BonModelResult`). -/
structure BonModelResult where
  modelName : String
  displayName : String
  samples : List SampleResult
  bestIndex : ℚ
  comparisonMarkdown : String
  brainstormSummary : Option String := none

/-- JS array indexing `l[q]` for a `number` index: defined exactly when the
index is a non-negative integer below the length, `undefined` (`none`)
otherwise. -/
def jsIndex {α : Type} (l : List α) (q : ℚ) : Option α :=
  if h : q.den = 1 ∧ 0 ≤ q.num ∧ q.num.toNat < l.length then
    some (l.get ⟨q.num.toNat, h.2.2⟩)
  else none

/-- Collect the successful samples of one model's batch, preserving the
dispatch ordinal (query script lines 569-580; `r.response` must be truthy,
so an empty response text is also dropped). -/
def collectSamples (results : List SingleQueryResult) : List SampleResult :=
  results.enum.filterMap (fun p =>
    if p.2.status = QueryStatus.success then
      match p.2.response with
      | some t =>
        if t = "" then none
        else some { index := p.1, response := t, latencyMs := p.2.latencyMs,
                    tokensUsed := p.2.tokensUsed }
      | none => none
    else none)

/-- Everything nondeterministic that one model's pipeline consumes, bundled
as an oracle: the `numSamples` single-query outcomes (in dispatch-ordinal
order, as `Promise.all` returns them) and the texts the judge calls would
return (`none` where the call would throw). -/
structure ModelOracle where
  queryResults : List SingleQueryResult
  judgePrimary : Option String := none
  judgeSecondary : Option String := none

/-- One model's pipeline after dispatch (query script lines 566-632):
collect successful samples; with zero successes the model contributes
nothing (`none`); otherwise run the judge (brainstorm or selection) and
build the `BonModelResult` that is pushed into the accumulator.
The `Except.error` branches are unreachable because the sample list is
non-empty. -/
def processModel (prompt : String) (config : Config) (brainstorm : Bool)
    (oracle : String → ModelOracle) (modelName : String) :
    Option BonModelResult :=
  let o := oracle modelName
  let samples := collectSamples o.queryResults
  if samples.isEmpty then none
  else if brainstorm then
    match brainstormModelSamples modelName prompt samples
        o.judgePrimary o.judgeSecondary with
    | .ok extraction =>
      some { modelName := modelName
             displayName := displayNameFor config modelName
             samples := samples
             bestIndex := 0
             comparisonMarkdown := extraction.comparisonMarkdown
             brainstormSummary := some extraction.mergedIdeas }
    | .error _ => none
  else
    match compareModelSamples modelName prompt samples
        o.judgePrimary o.judgeSecondary with
    | .ok comparison =>
      some { modelName := modelName
             displayName := displayNameFor config modelName
             samples := samples
             bestIndex := comparison.bestIndex
             comparisonMarkdown := comparison.comparisonMarkdown
             brainstormSummary := none }
    | .error _ => none

/-- `Array.prototype.indexOf`: 0-based index, `-1` when absent. -/
def jsIndexOf (l : List String) (s : String) : ℤ :=
  if s ∈ l then (l.indexOf s : ℤ) else -1

/-- The re-sort of the accumulated results into the original model-selection
order (query script lines 674-677), via the comparator
`modelNames.indexOf(a.modelName) - modelNames.indexOf(b.modelName)`. -/
def sortModelResults (modelNames : List String)
    (results : List BonModelResult) : List BonModelResult :=
  List.insertionSort
    (fun a b => jsIndexOf modelNames a.modelName ≤ jsIndexOf modelNames b.modelName)
    results

/-- One entry of the synthesis input (the `bestResponses` array, query
script lines 683-691). -/
structure BestResponse where
  modelName : String
  displayName : String
  response : String
  sampleCount : ℕ
  bestIndex : ℚ

/-- Build the synthesis input from the sorted model results, mirroring
`mr.brainstormSummary || mr.samples[mr.bestIndex]?.response || ''`. -/
def buildBestResponses (brainstorm : Bool) (results : List BonModelResult) :
    List BestResponse :=
  results.map (fun mr =>
    { modelName := mr.modelName
      displayName := mr.displayName
      response :=
        if brainstorm then
          jsStrOr mr.brainstormSummary
            (jsStrOr ((jsIndex mr.samples mr.bestIndex).map (·.response)) "")
        else jsStrOr ((jsIndex mr.samples mr.bestIndex).map (·.response)) ""
      sampleCount := mr.samples.length
      bestIndex := mr.bestIndex })

/-- Per-sample metadata stored in `responses.json`. -/
structure SavedSampleMeta where
  index : ℕ
  latencyMs : ℕ
  tokensUsed : Option ℕ
  responseLength : ℕ

/-- Per-model record stored in `responses.json`. -/
structure SavedModelJson where
  model : String
  displayName : String
  bestIndex : ℚ
  samples : List SavedSampleMeta

/-- The data written to `responses.json`. -/
structure ResponsesJson where
  prompt : String
  numSamples : ℕ
  temperature : ℚ
  models : List SavedModelJson

/-- The files written into one per-model directory. -/
structure SavedModelDir where
  modelName : String
  sampleFiles : List (ℕ × String)
  mergedIdeas : Option String
  bestResponse : Option String
  comparison : String

/-- The artifact tree `saveResults` persists. -/
structure SavedArtifact where
  responsesJson : ResponsesJson
  perModel : List SavedModelDir
  synthesis : Option String

/-- `saveResults` (query script lines 368-431) as a pure description of the
files it writes: the summary JSON, per-model sample files, the merged-ideas
or best-response file (the latter only when `samples[bestIndex]` exists),
the comparison report, and the optional synthesis document. -/
def saveResultsArtifact (prompt : String) (numSamples : ℕ) (temperature : ℚ)
    (modelResults : List BonModelResult) (synthesis : Option String) :
    SavedArtifact :=
  { responsesJson :=
    { prompt := prompt
      numSamples := numSamples
      temperature := temperature
      models := modelResults.map (fun mr =>
        { model := mr.modelName
          displayName := mr.displayName
          bestIndex := mr.bestIndex
          samples := mr.samples.map (fun s =>
            { index := s.index
              latencyMs := s.latencyMs
              tokensUsed := s.tokensUsed
              responseLength := s.response.length }) }) }
    perModel := modelResults.map (fun mr =>
      { modelName := mr.modelName
        sampleFiles := mr.samples.map (fun s => (s.index, s.response))
        mergedIdeas :=
          if jsTruthyStr mr.brainstormSummary then mr.brainstormSummary else none
        bestResponse :=
          if jsTruthyStr mr.brainstormSummary then none
          else (jsIndex mr.samples mr.bestIndex).map (·.response)
        comparison := mr.comparisonMarkdown })
    synthesis := synthesis }

/-- Outcome of one whole run, as observed after `runQuery` finishes. -/
structure RunOutcome where
  modelResults : List BonModelResult
  synthesisInput : List BestResponse
  failedModels : List String
  synthesis : Option String
  persisted : SavedArtifact

/-- The orchestration of `runQuery` after settings are resolved (query
script lines 523-737).  The per-model pipelines run concurrently and push
into `allModelResults` in completion order, modelled by the explicit
`completedOrder` parameter (a permutation of `modelNames` chosen by the
scheduler); the accumulated list is then re-sorted into the original order.
The cross-model synthesis network call is the `synthCall` oracle
(`Except.error` = the call threw; it is caught and the run proceeds), and it
is issued only when synthesis is enabled and at least one model produced a
result.  `saveResults` always runs. -/
def runQueryCollect (prompt : String) (config : Config)
    (modelNames : List String) (numSamples : ℕ) (temperature : ℚ)
    (brainstorm shouldSynthesise : Bool) (oracle : String → ModelOracle)
    (completedOrder : List String) (synthCall : Except String String) :
    RunOutcome :=
  let unsorted := completedOrder.filterMap (processModel prompt config brainstorm oracle)
  let allModelResults := sortModelResults modelNames unsorted
  let bestResponses :=
    if shouldSynthesise && !allModelResults.isEmpty then
      buildBestResponses brainstorm allModelResults
    else []
  let synthesis :=
    if shouldSynthesise && !allModelResults.isEmpty then synthCall.toOption
    else none
  let failedModels := modelNames.filter (fun m =>
    (allModelResults.find? (fun mr => mr.modelName = m)).isNone)
  { modelResults := allModelResults
    synthesisInput := bestResponses
    failedModels := failedModels
    synthesis := synthesis
    persisted := saveResultsArtifact prompt numSamples temperature
      allModelResults synthesis }

/-! ### CLI option and preset resolution (query script lines 435-471 and
749-764) -/

/-- What the user actually typed on the `query` command line (`none` = flag
not given).  Numeric option strings are modelled by their numeric values. -/
structure QueryCliArgs where
  numSamples : Option ℕ := none
  temperature : Option ℚ := none
  models : Option String := none
  preset : Option String := none
  timeout : Option ℕ := none
  brainstorm : Option Bool := none
  synthesise : Option Bool := none

/-- The `options` object commander hands to `runQuery`. -/
structure QueryOptions where
  numSamples : Option ℕ
  temperature : Option ℚ
  models : Option String
  preset : Option String
  timeout : Option ℕ
  brainstorm : Option Bool
  synthesise : Option Bool

/-- The commander option declarations for the `query` command (query script
lines 749-764): `-n`, `-T` and `-t` carry hard-coded default values
(`'4'`, `'0.8'`, `'180'`), so the parsed option is always present; the
other flags have no default. -/
def commanderQueryOptions (cli : QueryCliArgs) : QueryOptions :=
  { numSamples := some (cli.numSamples.getD 4)
    temperature := some (cli.temperature.getD 0.8)
    models := cli.models
    preset := cli.preset
    timeout := some (cli.timeout.getD 180)
    brainstorm := cli.brainstorm
    synthesise := cli.synthesise }

/-- The numeric run settings `runQuery` resolves. -/
structure ResolvedSettings where
  numSamples : ℕ
  temperature : ℚ
  timeoutSeconds : ℕ
  timeoutMs : ℕ
  brainstorm : Bool
  temperatureRange : Option (ℚ × ℚ)
deriving DecidableEq

/-- The resolution cascade in `runQuery` (query script lines 452-471):
`options.X ?? presetConfig?.X ?? hardDefault`, with the preset consulted
only when `-m` was not given (`presetName = options.preset || 'quick'`). -/
def resolveRunSettings (options : QueryOptions) (config : Config) :
    ResolvedSettings :=
  let presetName : Option String :=
    if jsTruthyStr options.models then none
    else some (jsStrOr options.preset "quick")
  let presetConfig : Option PresetConfig := presetName.bind (lookupPreset config)
  let numSamples := options.numSamples.getD
    ((presetConfig.bind (·.num_samples)).getD 4)
  let temperature := options.temperature.getD
    ((presetConfig.bind (·.temperature)).getD 0.8)
  let timeoutSeconds := options.timeout.getD
    ((presetConfig.bind (·.timeout_seconds)).getD 180)
  let brainstorm := options.brainstorm.getD
    ((presetConfig.bind (·.brainstorm)).getD false)
  { numSamples := numSamples
    temperature := temperature
    timeoutSeconds := timeoutSeconds
    timeoutMs := timeoutSeconds * 1000
    brainstorm := brainstorm
    temperatureRange := presetConfig.bind (·.temperature_range) }

/-- Follows the spec's words, for comparison with the code: "Precedence when
resolving numeric settings: explicit CLI value > preset-supplied value >
hard-coded default." -/
def specPrecedenceResolve {α : Type} (cliValue presetValue : Option α)
    (hardDefault : α) : α :=
  match cliValue with
  | some v => v
  | none =>
    match presetValue with
    | some v => v
    | none => hardDefault

/-- The rejection condition of `parseComparisonResponse`, as a boolean
predicate on the raw judge response: after tolerant JSON extraction the
`best_index` member is missing, not a number, or outside `[1, sampleCount]`
(mirrors per-model-synthesis lines 152-158). -/
def invalidJudgeIndex (raw : String) (sampleCount : ℕ) : Bool :=
  match extractJson raw with
  | none => true
  | some parsed =>
    match jsonGet parsed "best_index" with
    | some (.num q) => decide (q < 1) || decide ((sampleCount : ℚ) < q)
    | _ => true

/-- The `best_index` number a judge response supplies, if any (used to state
integrality side conditions). -/
def suppliedBestIndex (raw : String) : Option ℚ :=
  match extractJson raw with
  | some parsed =>
    match jsonGet parsed "best_index" with
    | some (.num q) => some q
    | _ => none
  | none => none

/-! ### Theorems -/

/-- C8: in selection mode with exactly one successful sample, the judge makes
no call (the result is the same for every judge oracle), returns that sample
as best (`bestIndex` 0) with the skipped-comparison note, and
`samples[bestIndex]` is the single sample itself (so the persisted/rendered
output is that sample verbatim). -/
theorem single_sample_no_judge_call (modelName originalPrompt : String)
    (s : SampleResult) (primary secondary : Option String) :
    compareModelSamples modelName originalPrompt [s] primary secondary =
      .ok { bestIndex := 0
            comparisonMarkdown :=
              "## Comparison notes\n\nOnly one sample — no comparison needed.\n"
            consistentPoints := []
            uniquePoints := []
            contradictions := [] } ∧
    jsIndex [s] (0 : ℚ) = some s := by
  constructor
  · rfl
  · simp [jsIndex]

/-- C3: with a temperature range `[a, b]` (`a ≤ b`) and `N ≥ 1` samples, the
per-sample temperature is monotonically non-decreasing in the ordinal; with
`N = 1` every sample gets the midpoint `(a+b)/2`; with `N ≥ 2` sample `0`
gets `a`, sample `N-1` gets `b`, and consecutive samples are evenly spaced
by `(b-a)/(N-1)`. -/
theorem temperature_schedule_linear (a b t : ℚ) (N : ℕ)
    (hab : a ≤ b) (hN : 1 ≤ N) :
    (∀ i j : ℕ, i ≤ j →
      getTemperatureForSample (some (a, b)) t N i ≤
        getTemperatureForSample (some (a, b)) t N j) ∧
    (N = 1 → ∀ i : ℕ,
      getTemperatureForSample (some (a, b)) t N i = (a + b) / 2) ∧
    (2 ≤ N →
      getTemperatureForSample (some (a, b)) t N 0 = a ∧
      getTemperatureForSample (some (a, b)) t N (N - 1) = b ∧
      ∀ i : ℕ,
        getTemperatureForSample (some (a, b)) t N (i + 1) -
          getTemperatureForSample (some (a, b)) t N i
          = (b - a) / ((N : ℚ) - 1)) := by
  have hg : ∀ i : ℕ, getTemperatureForSample (some (a, b)) t N i =
      if N ≤ 1 then (a + b) / 2
      else a + (b - a) * ((i : ℚ) / ((N : ℚ) - 1)) := by
    intro i
    rfl
  by_cases hN1 : N ≤ 1
  · refine ⟨?_, ?_, ?_⟩
    · intro i j hij
      simp [hg, hN1]
    · intro _ i
      simp [hg, hN1]
    · intro h2
      omega
  · have hN2 : 2 ≤ N := by omega
    have h2q : (2 : ℚ) ≤ (N : ℚ) := by exact_mod_cast hN2
    have hpos : (0 : ℚ) < (N : ℚ) - 1 := by linarith
    have hba : (0 : ℚ) ≤ b - a := by linarith
    refine ⟨?_, ?_, fun _ => ⟨?_, ?_, ?_⟩⟩
    · intro i j hij
      simp only [hg, if_neg hN1]
      have hijq : (i : ℚ) ≤ (j : ℚ) := by exact_mod_cast hij
      gcongr
    · intro h1
      omega
    · simp [hg, if_neg hN1]
    · rw [hg, if_neg hN1, Nat.cast_sub hN, Nat.cast_one,
        div_self (ne_of_gt hpos)]
      ring
    · intro i
      rw [hg, hg, if_neg hN1, if_neg hN1]
      push_cast
      field_simp
      ring

/-- Witness for `temperature_schedule_linear` at `a = 0`, `b = 1`, `N = 3`. -/
theorem temperature_schedule_linear_witness :
    (0 : ℚ) ≤ 1 ∧ 1 ≤ 3 ∧
    ((∀ i j : ℕ, i ≤ j →
      getTemperatureForSample (some ((0 : ℚ), (1 : ℚ))) 0 3 i ≤
        getTemperatureForSample (some ((0 : ℚ), (1 : ℚ))) 0 3 j) ∧
    (3 = 1 → ∀ i : ℕ,
      getTemperatureForSample (some ((0 : ℚ), (1 : ℚ))) 0 3 i = (0 + 1) / 2) ∧
    (2 ≤ 3 →
      getTemperatureForSample (some ((0 : ℚ), (1 : ℚ))) 0 3 0 = 0 ∧
      getTemperatureForSample (some ((0 : ℚ), (1 : ℚ))) 0 3 (3 - 1) = 1 ∧
      ∀ i : ℕ,
        getTemperatureForSample (some ((0 : ℚ), (1 : ℚ))) 0 3 (i + 1) -
          getTemperatureForSample (some ((0 : ℚ), (1 : ℚ))) 0 3 i
          = (1 - 0) / ((3 : ℚ) - 1))) :=
  ⟨by norm_num, by norm_num,
    temperature_schedule_linear 0 1 0 3 (by norm_num) (by norm_num)⟩

/-- C6: the single-sample query always returns a tagged outcome with status
`success`, `error` or `timeout` (it is a total function of its inputs and
the generation outcome — it never throws); when the provider adapter yields
no invocable model the outcome is a descriptive `error` result; and
`createModel` yields no model exactly for an unknown model, a browser-only
model, or a deep-research provider. -/
theorem querySingleModel_tagged_outcome (modelName prompt : String)
    (config : Config) (timeoutMs : ℕ) (temperature : ℚ) (gen : GenOutcome)
    (latencyMs : ℕ) :
    ((querySingleModel modelName prompt config timeoutMs temperature gen
        latencyMs).status = QueryStatus.success ∨
     (querySingleModel modelName prompt config timeoutMs temperature gen
        latencyMs).status = QueryStatus.error ∨
     (querySingleModel modelName prompt config timeoutMs temperature gen
        latencyMs).status = QueryStatus.timeout) ∧
    (createModel modelName config = none →
      querySingleModel modelName prompt config timeoutMs temperature gen
          latencyMs =
        { status := QueryStatus.error
          error := some ("Could not create model instance for " ++ modelName)
          latencyMs := latencyMs }) ∧
    (createModel modelName config = none ↔
      lookupModel config modelName = none ∨
      ∃ mc, lookupModel config modelName = some mc ∧
        (mc.type = ModelType.browser ∨ mc.provider = Provider.openaiDeep ∨
          mc.provider = Provider.geminiDeep)) := by
  refine ⟨?_, ?_, ?_⟩
  · unfold querySingleModel
    rcases createModel modelName config with _ | im
    · simp
    · rcases gen with ⟨text, tok⟩ | ⟨n, msg⟩
      · simp
      · by_cases hn : n = "AbortError" <;> simp [hn]
  · intro h
    unfold querySingleModel
    rw [h]
  · unfold createModel
    rcases hm : lookupModel config modelName with _ | mc
    · simp
    · simp only [hm, Option.some.injEq]
      by_cases hb : mc.type = ModelType.browser
      · simp only [hb, if_true]
        constructor
        · intro _
          exact Or.inr ⟨mc, rfl, Or.inl hb⟩
        · intro _
          trivial
      · simp only [hb, if_false]
        rcases hp : mc.provider <;> simp_all

/-- Witness for `querySingleModel_tagged_outcome`: an unknown model name in
an empty configuration yields the descriptive error outcome. -/
theorem querySingleModel_tagged_outcome_witness :
    createModel "missing" ⟨[], [], ⟨"quick", "standard", 8000⟩⟩ = none ∧
    querySingleModel "missing" "p" ⟨[], [], ⟨"quick", "standard", 8000⟩⟩
        1000 1 (.ok "t" none) 7 =
      { status := QueryStatus.error
        error := some "Could not create model instance for missing"
        latencyMs := 7 } :=
  ⟨rfl,
    (querySingleModel_tagged_outcome "missing" "p"
      ⟨[], [], ⟨"quick", "standard", 8000⟩⟩ 1000 1 (.ok "t" none) 7).2.1 rfl⟩

/-- A configuration whose `quick` preset supplies its own numeric defaults,
used to exhibit the CLI-default/preset interaction. -/
def presetDemoConfig : Config :=
  { presets := [("quick",
      { num_samples := some 2
        temperature := some (1 / 2)
        timeout_seconds := some 60 })]
    models := []
    defaults := ⟨"quick", "standard", 8000⟩ }

/-- C2 (divergence evidence): when the user passes none of `-n`/`-T`/`-t`
and no `-m` (so the `quick` preset is consulted), the commander option
defaults (`'4'`, `'0.8'`, `'180'`) make `options.numSamples`/`temperature`/
`timeout` always present, so the `?? preset ?? default` cascade in
`runQuery` never reaches the preset tier: the code resolves 4/0.8/180 while
the spec's precedence (explicit CLI > preset > hard-coded default) resolves
the preset's 2/0.5/60. -/
theorem preset_tier_unreachable_divergence :
    (resolveRunSettings (commanderQueryOptions {}) presetDemoConfig).numSamples
        = 4 ∧
    specPrecedenceResolve (none : Option ℕ)
        ((lookupPreset presetDemoConfig "quick").bind (·.num_samples)) 4 = 2 ∧
    (resolveRunSettings (commanderQueryOptions {}) presetDemoConfig).temperature
        = 0.8 ∧
    specPrecedenceResolve (none : Option ℚ)
        ((lookupPreset presetDemoConfig "quick").bind (·.temperature)) 0.8
        = 1 / 2 ∧
    (resolveRunSettings (commanderQueryOptions {})
        presetDemoConfig).timeoutSeconds = 180 ∧
    specPrecedenceResolve (none : Option ℕ)
        ((lookupPreset presetDemoConfig "quick").bind (·.timeout_seconds)) 180
        = 60 := by
  refine ⟨rfl, rfl, ?_, ?_, rfl, rfl⟩
  · norm_num [resolveRunSettings, commanderQueryOptions]
  · norm_num [specPrecedenceResolve, lookupPreset, presetDemoConfig]

/-- Empty configuration used for concrete instances. -/
def emptyConfig : Config := ⟨[], [], ⟨"quick", "standard", 8000⟩⟩



/-- Lookup in the tracker's model map (JS `Map.get`). -/
def lookupEntry (k : String) : BonTrackerState → Option ModelSampleProgress
  | [] => none
  | e :: t => if e.1 = k then some e.2 else lookupEntry k t

/-- Looking up the mutated key after `updateEntry` sees the mutated entry. -/
theorem lookupEntry_updateEntry_self (k : String)
    (f : ModelSampleProgress → ModelSampleProgress) (st : BonTrackerState) :
    lookupEntry k (updateEntry k f st) = (lookupEntry k st).map f := by
  induction st with
  | nil => rfl
  | cons e t ih =>
    rcases e with ⟨a, p⟩
    by_cases he : a = k
    · simp [updateEntry, lookupEntry, he]
    · simp [updateEntry, lookupEntry, he, ih]

/-- Looking up any other key after `updateEntry` is unchanged. -/
theorem lookupEntry_updateEntry_ne (k k' : String) (hne : k' ≠ k)
    (f : ModelSampleProgress → ModelSampleProgress) (st : BonTrackerState) :
    lookupEntry k' (updateEntry k f st) = lookupEntry k' st := by
  induction st with
  | nil => rfl
  | cons e t ih =>
    rcases e with ⟨a, p⟩
    by_cases he : a = k
    · subst he
      have h2 : ¬ a = k' := fun h => hne h.symm
      simp [updateEntry, lookupEntry, h2, ih]
    · by_cases h2 : a = k'
      · simp [updateEntry, lookupEntry, he, h2, hne]
      · simp [updateEntry, lookupEntry, he, h2, ih]

/-- C9 (counterexample): in the normal flow `setComparing` then
`setComparisonDone`, the `comparing` flag transitions from `true` back to
`false`, so it is not the case that every progress-state mutation is a
counter increment or a monotonic false-to-true boolean flip. -/
theorem tracker_comparing_not_monotone :
    (lookupEntry "m" (applyMutation (.setComparing "m")
        (initTrackerState ["m"] 4 emptyConfig))).map (·.comparing)
      = some true ∧
    (lookupEntry "m" (applyMutation (.setComparisonDone "m")
        (applyMutation (.setComparing "m")
          (initTrackerState ["m"] 4 emptyConfig)))).map (·.comparing)
      = some false ∧
    ¬ (∀ (op : TrackerMutation) (st : BonTrackerState) (k : String)
        (p q : ModelSampleProgress),
        lookupEntry k st = some p →
        lookupEntry k (applyMutation op st) = some q →
        (p.completed ≤ q.completed ∧ p.failed ≤ q.failed ∧
         (p.comparing = true → q.comparing = true) ∧
         (p.comparisonDone = true → q.comparisonDone = true))) := by
  refine ⟨rfl, rfl, ?_⟩
  intro h
  have h2 := (h (.setComparisonDone "m")
      (applyMutation (.setComparing "m") (initTrackerState ["m"] 4 emptyConfig))
      "m" ⟨"m", "m", 4, 0, 0, true, false⟩ ⟨"m", "m", 4, 0, 0, false, true⟩
      rfl rfl).2.2.1 rfl
  exact absurd h2 (by decide)

/-- C9 (amended): every tracker mutation is a counter increment or a boolean
set; the `completed` and `failed` counters never decrease, the
`comparisonDone` flag never reverts to false, and the `comparing` flag
transitions from true to false only through `setComparisonDone` (which
clears it when the model's comparison completes). -/
theorem tracker_mutations_monotone (op : TrackerMutation)
    (st : BonTrackerState) (k : String) (p q : ModelSampleProgress)
    (hp : lookupEntry k st = some p)
    (hq : lookupEntry k (applyMutation op st) = some q) :
    p.completed ≤ q.completed ∧ p.failed ≤ q.failed ∧
    (p.comparisonDone = true → q.comparisonDone = true) ∧
    (p.comparing = true → q.comparing = false →
      op = TrackerMutation.setComparisonDone k) := by
  have main : ∀ (n : String) (f : ModelSampleProgress → ModelSampleProgress),
      applyMutation op st = updateEntry n f st →
      (k = n → q = f p) ∧ (k ≠ n → q = p) := by
    intro n f hf
    constructor
    · intro hk
      subst hk
      rw [hf, lookupEntry_updateEntry_self, hp] at hq
      exact (Option.some.injEq _ _ ▸ hq).symm
    · intro hk
      rw [hf, lookupEntry_updateEntry_ne _ _ hk, hp] at hq
      exact (Option.some.injEq _ _ ▸ hq).symm
  rcases op with ⟨n, b⟩ | n | n
  · cases b
    · rcases main n (fun m => { m with failed := m.failed + 1 }) rfl with ⟨h1, h2⟩
      by_cases hk : k = n
      · rcases h1 hk with rfl
        exact ⟨le_refl _, Nat.le_succ _, fun h => h, fun ha hb => by simp [ha] at hb⟩
      · rcases h2 hk with rfl
        exact ⟨le_refl _, le_refl _, fun h => h, fun ha hb => by simp [ha] at hb⟩
    · rcases main n (fun m => { m with completed := m.completed + 1 }) rfl with ⟨h1, h2⟩
      by_cases hk : k = n
      · rcases h1 hk with rfl
        exact ⟨Nat.le_succ _, le_refl _, fun h => h, fun ha hb => by simp [ha] at hb⟩
      · rcases h2 hk with rfl
        exact ⟨le_refl _, le_refl _, fun h => h, fun ha hb => by simp [ha] at hb⟩
  · rcases main n (fun m => { m with comparing := true }) rfl with ⟨h1, h2⟩
    by_cases hk : k = n
    · rcases h1 hk with rfl
      exact ⟨le_refl _, le_refl _, fun h => h, fun ha hb => by simp [ha] at hb⟩
    · rcases h2 hk with rfl
      exact ⟨le_refl _, le_refl _, fun h => h, fun ha hb => by simp [ha] at hb⟩
  · rcases main n
        (fun m => { m with comparing := false, comparisonDone := true }) rfl
        with ⟨h1, h2⟩
    by_cases hk : k = n
    · rcases h1 hk with rfl
      exact ⟨le_refl _, le_refl _, fun _ => rfl, fun _ _ => by rw [hk]⟩
    · rcases h2 hk with rfl
      exact ⟨le_refl _, le_refl _, fun h => h, fun ha hb => by simp [ha] at hb⟩

/-- Witness for `tracker_mutations_monotone`: a successful-sample increment
on a one-model tracker. -/
theorem tracker_mutations_monotone_witness :
    lookupEntry "m" (initTrackerState ["m"] 4 emptyConfig) =
      some ⟨"m", "m", 4, 0, 0, false, false⟩ ∧
    lookupEntry "m" (applyMutation (.sampleComplete "m" true)
        (initTrackerState ["m"] 4 emptyConfig)) =
      some ⟨"m", "m", 4, 1, 0, false, false⟩ ∧
    ((⟨"m", "m", 4, 0, 0, false, false⟩ : ModelSampleProgress).completed ≤
        (⟨"m", "m", 4, 1, 0, false, false⟩ : ModelSampleProgress).completed ∧
      (⟨"m", "m", 4, 0, 0, false, false⟩ : ModelSampleProgress).failed ≤
        (⟨"m", "m", 4, 1, 0, false, false⟩ : ModelSampleProgress).failed ∧
      ((⟨"m", "m", 4, 0, 0, false, false⟩ :
          ModelSampleProgress).comparisonDone = true →
        (⟨"m", "m", 4, 1, 0, false, false⟩ :
          ModelSampleProgress).comparisonDone = true) ∧
      ((⟨"m", "m", 4, 0, 0, false, false⟩ :
          ModelSampleProgress).comparing = true →
        (⟨"m", "m", 4, 1, 0, false, false⟩ :
          ModelSampleProgress).comparing = false →
        TrackerMutation.sampleComplete "m" true =
          TrackerMutation.setComparisonDone "m")) :=
  ⟨rfl, rfl,
    tracker_mutations_monotone (.sampleComplete "m" true)
      (initTrackerState ["m"] 4 emptyConfig) "m"
      ⟨"m", "m", 4, 0, 0, false, false⟩ ⟨"m", "m", 4, 1, 0, false, false⟩
      rfl rfl⟩

/-- C4: whenever the judge response's parsed `best_index` is missing, not a
number, or outside the range `[1, sampleCount]`, `parseComparisonResponse`
rejects the response as unusable (`none`), and `compareModelSamples` never
uses the invalid index: selection falls through to the deterministic
longest-response fallback tier — both when the invalid response came from
the primary judge and when it came from the secondary judge after a primary
request failure. -/
theorem invalid_judge_index_falls_through (modelName originalPrompt raw : String)
    (samples : List SampleResult) (secondary : Option String)
    (hbad : invalidJudgeIndex raw samples.length = true)
    (h2 : 2 ≤ samples.length) (hraw : raw ≠ "") :
    parseComparisonResponse raw samples.length = none ∧
    compareModelSamples modelName originalPrompt samples (some raw) secondary =
      .ok (longestFallback modelName samples) ∧
    compareModelSamples modelName originalPrompt samples none (some raw) =
      .ok (longestFallback modelName samples) := by
  have hparse : parseComparisonResponse raw samples.length = none := by
    unfold invalidJudgeIndex at hbad
    unfold parseComparisonResponse
    rcases hej : extractJson raw with _ | j
    · simp only [hej]
    · simp only [hej] at hbad ⊢
      rcases hbi : jsonGet j "best_index" with _ | v
      · simp only [hbi]
      · rcases v with _ | b | q | s | xs | fs
        · simp only [hbi]
        · simp only [hbi]
        · simp only [hbi] at hbad ⊢
          simp only [Bool.or_eq_true, decide_eq_true_eq] at hbad
          rw [if_pos hbad]
        · simp only [hbi]
        · simp only [hbi]
        · simp only [hbi]
  have hne0 : ¬ samples.length = 0 := by omega
  have hne1 : ¬ samples.length = 1 := by omega
  refine ⟨hparse, ?_, ?_⟩
  · simp [compareModelSamples, compareWithRaw, chooseRawResponse, hne0, hne1,
      jsTruthyStr, hraw, hparse]
  · simp [compareModelSamples, compareWithRaw, chooseRawResponse, hne0, hne1,
      jsTruthyStr, hraw, hparse]

/-- Witness for `invalid_judge_index_falls_through`: a judge returning
`best_index` 7 for two samples is rejected and the longest response wins. -/
theorem invalid_judge_index_falls_through_witness :
    invalidJudgeIndex "\x7b\x22best_index\x22: 7\x7d"
        ([⟨0, "a", 1, none⟩, ⟨1, "bb", 2, none⟩] : List SampleResult).length
      = true ∧
    2 ≤ ([⟨0, "a", 1, none⟩, ⟨1, "bb", 2, none⟩] : List SampleResult).length ∧
    ("\x7b\x22best_index\x22: 7\x7d" : String) ≠ "" ∧
    (parseComparisonResponse "\x7b\x22best_index\x22: 7\x7d"
        ([⟨0, "a", 1, none⟩, ⟨1, "bb", 2, none⟩] : List SampleResult).length
        = none ∧
      compareModelSamples "m" "p"
          [⟨0, "a", 1, none⟩, ⟨1, "bb", 2, none⟩]
          (some "\x7b\x22best_index\x22: 7\x7d") none =
        .ok (longestFallback "m" [⟨0, "a", 1, none⟩, ⟨1, "bb", 2, none⟩]) ∧
      compareModelSamples "m" "p"
          [⟨0, "a", 1, none⟩, ⟨1, "bb", 2, none⟩]
          none (some "\x7b\x22best_index\x22: 7\x7d") =
        .ok (longestFallback "m" [⟨0, "a", 1, none⟩, ⟨1, "bb", 2, none⟩])) :=
  ⟨by decide, by decide, by decide,
    invalid_judge_index_falls_through "m" "p" "\x7b\x22best_index\x22: 7\x7d"
      [⟨0, "a", 1, none⟩, ⟨1, "bb", 2, none⟩] none
      (by decide) (by decide) (by decide)⟩

/-- The running best index of the longest-response loop stays below the
number of elements scanned. -/
theorem findLongestIdxAux_lt (l : List SampleResult) (i b bl : ℕ)
    (hb : b < i) : findLongestIdxAux l i b bl < i + l.length := by
  induction l generalizing i b bl with
  | nil => simpa [findLongestIdxAux] using hb
  | cons s t ih =>
    simp only [findLongestIdxAux, List.length_cons]
    by_cases h : s.response.length > bl
    · rw [if_pos h]
      have := ih (i + 1) i s.response.length (Nat.lt_succ_self i)
      omega
    · rw [if_neg h]
      have := ih (i + 1) b bl (by omega)
      omega

/-- The longest-response fallback always selects a valid sample position. -/
theorem findLongestIdx_lt_length (samples : List SampleResult)
    (h : samples ≠ []) : findLongestIdx samples < samples.length := by
  rcases samples with _ | ⟨s, t⟩
  · exact absurd rfl h
  · unfold findLongestIdx
    simp only [findLongestIdxAux, List.length_cons]
    by_cases hc : s.response.length > 0
    · rw [if_pos hc]
      have := findLongestIdxAux_lt t (0 + 1) 0 s.response.length (by omega)
      omega
    · rw [if_neg hc]
      have := findLongestIdxAux_lt t (0 + 1) 0 0 (by omega)
      omega

/-- JS indexing with a natural-number index in range is defined. -/
theorem jsIndex_natCast {α : Type} (l : List α) (i : ℕ) (h : i < l.length) :
    (jsIndex l (i : ℚ)).isSome = true := by
  have hcond : ((i : ℚ)).den = 1 ∧ 0 ≤ ((i : ℚ)).num ∧
      ((i : ℚ)).num.toNat < l.length := by
    refine ⟨Rat.den_natCast i, ?_, ?_⟩
    · rw [Rat.num_natCast]
      exact Int.natCast_nonneg i
    · rw [Rat.num_natCast, Int.toNat_natCast]
      exact h
  unfold jsIndex
  rw [dif_pos hcond]
  rfl

/-- JS indexing with an integer index in range is defined. -/
theorem jsIndex_intCast {α : Type} (l : List α) (m : ℤ) (h0 : 0 ≤ m)
    (h1 : m < (l.length : ℤ)) : (jsIndex l (m : ℚ)).isSome = true := by
  have hcond : ((m : ℚ)).den = 1 ∧ 0 ≤ ((m : ℚ)).num ∧
      ((m : ℚ)).num.toNat < l.length := by
    refine ⟨Rat.den_intCast m, ?_, ?_⟩
    · rw [Rat.num_intCast]
      exact h0
    · rw [Rat.num_intCast]
      exact (Int.toNat_lt h0).mpr h1
  unfold jsIndex
  rw [dif_pos hcond]
  rfl

/-- A successful parse pins the returned 0-based `bestIndex` to the supplied
1-based `best_index`, which lies in `[1, sampleCount]`. -/
theorem parseComparisonResponse_bounds (raw : String) (n : ℕ)
    (p : ParsedComparison) (h : parseComparisonResponse raw n = some p) :
    ∃ q : ℚ, suppliedBestIndex raw = some q ∧ 1 ≤ q ∧ q ≤ (n : ℚ) ∧
      p.bestIndex = q - 1 := by
  unfold parseComparisonResponse at h
  unfold suppliedBestIndex
  rcases hej : extractJson raw with _ | j
  · rw [hej] at h
    exact absurd h (by simp)
  · simp only [hej] at h ⊢
    rcases hbi : jsonGet j "best_index" with _ | v
    · simp [hbi] at h
    · rcases v with _ | b | q | s | xs | fs
      · simp [hbi] at h
      · simp [hbi] at h
      · simp only [hbi] at h ⊢
        by_cases hc : q < 1 ∨ (n : ℚ) < q
        · rw [if_pos hc] at h
          exact absurd h (by simp)
        · rw [if_neg hc] at h
          push_neg at hc
          refine ⟨q, rfl, hc.1, hc.2, ?_⟩
          have hx := Option.some.inj h
          rw [← hx]
      · simp [hbi] at h
      · simp [hbi] at h
      · simp [hbi] at h

/-- The chosen judge text is always one of the two oracle responses. -/
theorem chooseRawResponse_origin (primary secondary : Option String) :
    chooseRawResponse primary secondary = primary ∨
      chooseRawResponse primary secondary = secondary := by
  unfold chooseRawResponse
  by_cases h : jsTruthyStr primary = true
  · rw [if_pos h]
    exact Or.inl rfl
  · rw [if_neg h]
    rcases secondary with _ | t
    · exact Or.inl rfl
    · exact Or.inr rfl

/-- C10 (amended): for every non-empty sample list, whenever every
`best_index` number supplied by a judge response is an integer, the
selection result's `bestIndex` is a valid JS index into the sample list
(`0 ≤ bestIndex < samples.length` as an integer), so the downstream
`samples[bestIndex]` accesses in `saveResults` and the live-document update
are defined.  (The parser accepts a non-integer in-range `best_index`, which
yields a fractional `bestIndex`; see the counterexample.) -/
theorem compare_bestIndex_valid (modelName originalPrompt : String)
    (samples : List SampleResult) (primary secondary : Option String)
    (hne : samples ≠ [])
    (hint : ∀ t q, (primary = some t ∨ secondary = some t) →
      suppliedBestIndex t = some q → q.den = 1) :
    (compareModelSamples modelName originalPrompt samples primary
        secondary).map (fun r => (jsIndex samples r.bestIndex).isSome) =
      .ok true := by
  have hlen0 : ¬ samples.length = 0 := by
    simpa [List.length_eq_zero] using hne
  have hlong : (jsIndex samples
      ((longestFallback modelName samples).bestIndex)).isSome = true := by
    have h1 := findLongestIdx_lt_length samples hne
    simpa [longestFallback] using jsIndex_natCast samples _ h1
  have hcw : ∀ r2 : Option String, (r2 = primary ∨ r2 = secondary) →
      (jsIndex samples
        ((compareWithRaw modelName samples r2).bestIndex)).isSome = true := by
    intro r2 hor
    unfold compareWithRaw
    by_cases ht : jsTruthyStr r2 = true
    · rw [if_pos ht]
      rcases r2 with _ | s
      · simp [jsTruthyStr] at ht
      · rcases hp : parseComparisonResponse s samples.length with _ | p
        · simpa [hp] using hlong
        · simp only [hp]
          obtain ⟨q, hsup, hq1, hqn, hbi⟩ :=
            parseComparisonResponse_bounds s samples.length p hp
          have hden : q.den = 1 := hint s q (hor.imp Eq.symm Eq.symm) hsup
          have hqeq : (q.num : ℚ) = q := (Rat.den_eq_one_iff q).mp hden
          have hnum1 : 1 ≤ q.num := by
            have : (1 : ℚ) ≤ (q.num : ℚ) := by rw [hqeq]; exact hq1
            exact_mod_cast this
          have hnumn : q.num ≤ (samples.length : ℤ) := by
            have : (q.num : ℚ) ≤ (samples.length : ℚ) := by rw [hqeq]; exact hqn
            exact_mod_cast this
          have hbix : p.bestIndex = ((q.num - 1 : ℤ) : ℚ) := by
            rw [hbi]
            push_cast
            rw [hqeq]
          simp only [hbix]
          exact jsIndex_intCast samples (q.num - 1) (by omega) (by omega)
    · rw [if_neg ht]
      exact hlong
  by_cases h1 : samples.length = 1
  · have : (jsIndex samples ((0 : ℕ) : ℚ)).isSome = true :=
      jsIndex_natCast samples 0 (by omega)
    simp only [compareModelSamples, if_neg hlen0, if_pos h1, Except.map]
    simpa using this
  · simp only [compareModelSamples, if_neg hlen0, if_neg h1, Except.map]
    rw [hcw _ (chooseRawResponse_origin primary secondary)]

/-- Witness for `compare_bestIndex_valid`: both judge calls failed on a
single-sample list. -/
theorem compare_bestIndex_valid_witness :
    (([⟨0, "a", 1, none⟩] : List SampleResult) ≠ []) ∧
    (compareModelSamples "m" "p" [⟨0, "a", 1, none⟩] none none).map
        (fun r => (jsIndex [(⟨0, "a", 1, none⟩ : SampleResult)]
          r.bestIndex).isSome) = .ok true :=
  ⟨by decide,
    compare_bestIndex_valid "m" "p" [⟨0, "a", 1, none⟩] none none
      (by decide)
      (fun t q h _ => by cases h <;> simp_all)⟩

attribute [local semireducible] Rat.add Rat.mul Rat.inv Rat.sub in
/-- C10 (counterexample): a judge response whose `best_index` is the
non-integer 1.5 — inside the accepted range for two samples — is accepted by
`parseComparisonResponse`, and the selection result carries the fractional
`bestIndex` 0.5, for which the downstream JS access `samples[bestIndex]` is
undefined. -/
theorem compare_bestIndex_fractional :
    (compareModelSamples "m" "p"
        [⟨0, "a", 1, none⟩, ⟨1, "bb", 2, none⟩]
        (some "\x7b\x22best_index\x22: 1.5\x7d") none).toOption.map
      (fun r => (r.bestIndex,
        jsIndex ([⟨0, "a", 1, none⟩, ⟨1, "bb", 2, none⟩] : List SampleResult)
          r.bestIndex)) = some (1 / 2, none) := by
  decide

/-- Every member of the joined list occurs verbatim inside the join. -/
theorem joinSep_data_infix (sep : String) (ss : List String) (x : String)
    (hx : x ∈ ss) : x.data <:+: (joinSep sep ss).data := by
  induction ss with
  | nil => cases hx
  | cons a t ih =>
    rcases t with _ | ⟨b, u⟩
    · rcases List.mem_singleton.mp hx with rfl
      exact List.infix_refl _
    · rcases List.mem_cons.mp hx with rfl | hx2
      · show x.data <:+: (x ++ sep ++ joinSep sep (b :: u)).data
        rw [String.data_append, String.data_append, List.append_assoc]
        exact (List.prefix_append _ _).isInfix
      · refine (ih hx2).trans ?_
        show (joinSep sep (b :: u)).data <:+:
          (a ++ sep ++ joinSep sep (b :: u)).data
        rw [String.data_append]
        exact (List.suffix_append _ _).isInfix

/-- C5 (counterexample): when the successful samples do not start at dispatch
ordinal 0 (here ordinals 1 and 2, because sample 0 failed), the brainstorm
concatenation fallback labels them `From sample 1` and `From sample 2` by
list position, so the block carrying the dispatch-ordinal label
(`From sample 3` for the sample with ordinal 2, following the 1-based
display convention used everywhere else) does not occur in the output: the
labels are not attributable to the dispatch ordinals. -/
theorem brainstorm_fallback_ordinal_mismatch :
    brainstormModelSamples "m" "p"
        [⟨1, "alpha", 0, none⟩, ⟨2, "beta", 0, none⟩] none none =
      .ok { mergedIdeas :=
              "**From sample 1:**\n\nalpha\n\n---\n\n**From sample 2:**\n\nbeta"
            comparisonMarkdown :=
              "## Extraction notes\n\nFallback: concatenated all samples (extraction model unavailable).\n" } ∧
    ¬ (∀ s ∈ ([⟨1, "alpha", 0, none⟩, ⟨2, "beta", 0, none⟩] :
          List SampleResult),
        ("**From sample " ++ toString (s.index + 1) ++ ":**\n\n"
            ++ s.response).data <:+:
          ("**From sample 1:**\n\nalpha\n\n---\n\n**From sample 2:**\n\nbeta" :
            String).data) := by
  constructor
  · rfl
  · decide

/-- C5 (amended): when every extraction attempt fails (both judge calls
threw), the brainstorm fallback output is the concatenation of every input
sample's full text, each labelled by its 1-based POSITION in the
successful-samples list (which equals the dispatch ordinal + 1 exactly when
all dispatched samples succeeded): no sample's content is dropped. -/
theorem brainstorm_fallback_preserves_samples (modelName originalPrompt : String)
    (samples : List SampleResult) (h2 : 2 ≤ samples.length) :
    brainstormModelSamples modelName originalPrompt samples none none =
      .ok { mergedIdeas := brainstormFallbackBody samples
            comparisonMarkdown :=
              "## Extraction notes\n\nFallback: concatenated all samples (extraction model unavailable).\n" } ∧
    ∀ i (hi : i < samples.length),
      ("**From sample " ++ toString (i + 1) ++ ":**\n\n"
          ++ (samples.get ⟨i, hi⟩).response).data <:+:
        (brainstormFallbackBody samples).data := by
  constructor
  · rcases samples with _ | ⟨a, _ | ⟨b, t⟩⟩
    · simp at h2
    · simp at h2
    · rfl
  · intro i hi
    apply joinSep_data_infix
    have hilen : i < samples.enum.length := by
      rw [List.enum_length]
      exact hi
    have hmem : (i, samples.get ⟨i, hi⟩) ∈ samples.enum := by
      have hg : samples.enum[i] = (i, samples[i]) :=
        List.getElem_enum samples i hilen
      exact hg ▸ List.getElem_mem hilen
    have hmap := List.mem_map_of_mem
      (fun p : ℕ × SampleResult =>
        "**From sample " ++ toString (p.1 + 1) ++ ":**\n\n" ++ p.2.response)
      hmem
    simpa [brainstormFallbackBody] using hmap

/-- Witness for `brainstorm_fallback_preserves_samples` on two samples. -/
theorem brainstorm_fallback_preserves_samples_witness :
    2 ≤ ([⟨0, "a", 1, none⟩, ⟨1, "b", 2, none⟩] : List SampleResult).length ∧
    (brainstormModelSamples "m" "p"
        [⟨0, "a", 1, none⟩, ⟨1, "b", 2, none⟩] none none =
      .ok { mergedIdeas :=
              brainstormFallbackBody [⟨0, "a", 1, none⟩, ⟨1, "b", 2, none⟩]
            comparisonMarkdown :=
              "## Extraction notes\n\nFallback: concatenated all samples (extraction model unavailable).\n" } ∧
    ∀ i (hi : i < ([⟨0, "a", 1, none⟩, ⟨1, "b", 2, none⟩] :
        List SampleResult).length),
      ("**From sample " ++ toString (i + 1) ++ ":**\n\n"
          ++ (([⟨0, "a", 1, none⟩, ⟨1, "b", 2, none⟩] :
            List SampleResult).get ⟨i, hi⟩).response).data <:+:
        (brainstormFallbackBody
          [⟨0, "a", 1, none⟩, ⟨1, "b", 2, none⟩]).data) :=
  ⟨by decide,
    brainstorm_fallback_preserves_samples "m" "p"
      [⟨0, "a", 1, none⟩, ⟨1, "b", 2, none⟩] (by decide)⟩

/-- A batch with no successful status yields no collected samples. -/
theorem collectSamples_eq_nil (results : List SingleQueryResult)
    (h : ∀ r ∈ results, r.status ≠ QueryStatus.success) :
    collectSamples results = [] := by
  rw [collectSamples, List.filterMap_eq_nil_iff]
  intro p hp
  rcases p with ⟨i, r⟩
  obtain ⟨hlt, hx⟩ := List.mem_enum hp
  have hr : r ∈ results := hx ▸ List.getElem_mem hlt
  simp [h r hr]

/-- A model whose samples all failed contributes no `BonModelResult`. -/
theorem processModel_eq_none (prompt : String) (config : Config)
    (brainstorm : Bool) (oracle : String → ModelOracle) (m : String)
    (h : ∀ r ∈ (oracle m).queryResults, r.status ≠ QueryStatus.success) :
    processModel prompt config brainstorm oracle m = none := by
  have hc := collectSamples_eq_nil _ h
  simp [processModel, hc]

/-- Whatever `processModel` produces is tagged with the model it was run
for. -/
theorem processModel_modelName (prompt : String) (config : Config)
    (brainstorm : Bool) (oracle : String → ModelOracle) (m : String)
    (mr : BonModelResult)
    (h : processModel prompt config brainstorm oracle m = some mr) :
    mr.modelName = m := by
  simp only [processModel] at h
  split at h
  · exact absurd h (by simp)
  · split at h
    · split at h
      · have := Option.some.inj h
        rw [← this]
      · exact absurd h (by simp)
    · split at h
      · have := Option.some.inj h
        rw [← this]
      · exact absurd h (by simp)

/-- C1: a model whose dispatched samples all failed (none with status
`success`) is excluded from the collected model-results list and from the
synthesis input, appears in the final failure summary, and the run still
persists the results artifact. -/
theorem failed_model_excluded (prompt : String) (config : Config)
    (modelNames : List String) (numSamples : ℕ) (temperature : ℚ)
    (brainstorm shouldSynthesise : Bool) (oracle : String → ModelOracle)
    (completedOrder : List String) (synthCall : Except String String)
    (m : String) (hm : m ∈ modelNames)
    (hfail : ∀ r ∈ (oracle m).queryResults, r.status ≠ QueryStatus.success) :
    (∀ mr ∈ (runQueryCollect prompt config modelNames numSamples temperature
        brainstorm shouldSynthesise oracle completedOrder
        synthCall).modelResults, mr.modelName ≠ m) ∧
    (∀ br ∈ (runQueryCollect prompt config modelNames numSamples temperature
        brainstorm shouldSynthesise oracle completedOrder
        synthCall).synthesisInput, br.modelName ≠ m) ∧
    m ∈ (runQueryCollect prompt config modelNames numSamples temperature
        brainstorm shouldSynthesise oracle completedOrder
        synthCall).failedModels ∧
    (runQueryCollect prompt config modelNames numSamples temperature
        brainstorm shouldSynthesise oracle completedOrder
        synthCall).persisted =
      saveResultsArtifact prompt numSamples temperature
        (runQueryCollect prompt config modelNames numSamples temperature
          brainstorm shouldSynthesise oracle completedOrder
          synthCall).modelResults
        (runQueryCollect prompt config modelNames numSamples temperature
          brainstorm shouldSynthesise oracle completedOrder
          synthCall).synthesis := by
  have hpm : processModel prompt config brainstorm oracle m = none :=
    processModel_eq_none prompt config brainstorm oracle m hfail
  have hnotin : ∀ mr ∈ sortModelResults modelNames
      (completedOrder.filterMap (processModel prompt config brainstorm oracle)),
      mr.modelName ≠ m := by
    intro mr hmr heq
    have hmem2 : mr ∈ completedOrder.filterMap
        (processModel prompt config brainstorm oracle) :=
      ((List.perm_insertionSort _ _).mem_iff).mp hmr
    obtain ⟨a, _, hfa⟩ := List.mem_filterMap.mp hmem2
    have hname := processModel_modelName prompt config brainstorm oracle a mr hfa
    rw [hname] at heq
    subst heq
    rw [hpm] at hfa
    exact absurd hfa (by simp)
  refine ⟨?_, ?_, ?_, rfl⟩
  · intro mr hmr
    exact hnotin mr hmr
  · intro br hbr
    simp only [runQueryCollect] at hbr
    split at hbr
    · obtain ⟨mr, hmr, rfl⟩ := List.mem_map.mp hbr
      exact hnotin mr hmr
    · exact absurd hbr (by simp)
  · show m ∈ List.filter _ modelNames
    rw [List.mem_filter]
    refine ⟨hm, ?_⟩
    rw [Option.isNone_iff_eq_none, List.find?_eq_none]
    intro mr hmr
    have := hnotin mr hmr
    simpa using this

/-- Witness for `failed_model_excluded`: one model whose single sample
errored. -/
theorem failed_model_excluded_witness :
    ("bad" ∈ ["bad"]) ∧
    (∀ r ∈ ((fun _ : String =>
        (⟨[⟨QueryStatus.error, none, some "boom", 5, none⟩], none, none⟩ :
          ModelOracle)) "bad").queryResults,
      r.status ≠ QueryStatus.success) ∧
    ((∀ mr ∈ (runQueryCollect "p" emptyConfig ["bad"] 1 1 false true
        (fun _ => ⟨[⟨QueryStatus.error, none, some "boom", 5, none⟩], none, none⟩)
        ["bad"] (.error "x")).modelResults, mr.modelName ≠ "bad") ∧
    (∀ br ∈ (runQueryCollect "p" emptyConfig ["bad"] 1 1 false true
        (fun _ => ⟨[⟨QueryStatus.error, none, some "boom", 5, none⟩], none, none⟩)
        ["bad"] (.error "x")).synthesisInput, br.modelName ≠ "bad") ∧
    "bad" ∈ (runQueryCollect "p" emptyConfig ["bad"] 1 1 false true
        (fun _ => ⟨[⟨QueryStatus.error, none, some "boom", 5, none⟩], none, none⟩)
        ["bad"] (.error "x")).failedModels ∧
    (runQueryCollect "p" emptyConfig ["bad"] 1 1 false true
        (fun _ => ⟨[⟨QueryStatus.error, none, some "boom", 5, none⟩], none, none⟩)
        ["bad"] (.error "x")).persisted =
      saveResultsArtifact "p" 1 1
        (runQueryCollect "p" emptyConfig ["bad"] 1 1 false true
          (fun _ => ⟨[⟨QueryStatus.error, none, some "boom", 5, none⟩], none, none⟩)
          ["bad"] (.error "x")).modelResults
        (runQueryCollect "p" emptyConfig ["bad"] 1 1 false true
          (fun _ => ⟨[⟨QueryStatus.error, none, some "boom", 5, none⟩], none, none⟩)
          ["bad"] (.error "x")).synthesis) :=
  ⟨by decide, by decide,
    failed_model_excluded "p" emptyConfig ["bad"] 1 1 false true
      (fun _ => ⟨[⟨QueryStatus.error, none, some "boom", 5, none⟩], none, none⟩)
      ["bad"] (.error "x") "bad" (by decide) (by decide)⟩

/-- `indexOf` of the head. -/
theorem jsIndexOf_head (c : String) (t : List String) :
    jsIndexOf (c :: t) c = 0 := by
  unfold jsIndexOf
  rw [if_pos (List.mem_cons_self c t), List.indexOf_cons_self]
  rfl

/-- `indexOf` is non-negative on members. -/
theorem jsIndexOf_nonneg (t : List String) (b : String) (hb : b ∈ t) :
    0 ≤ jsIndexOf t b := by
  unfold jsIndexOf
  rw [if_pos hb]
  exact Int.natCast_nonneg _

/-- `indexOf` shifts by one under a distinct head. -/
theorem jsIndexOf_cons_mem (c x : String) (t : List String) (hx : x ∈ t)
    (hne : x ≠ c) : jsIndexOf (c :: t) x = jsIndexOf t x + 1 := by
  unfold jsIndexOf
  rw [if_pos (List.mem_cons_of_mem _ hx), if_pos hx,
    List.indexOf_cons_ne _ (Ne.symm hne)]
  push_cast
  ring

/-- In a duplicate-free list, `indexOf` is strictly increasing along the
list. -/
theorem pairwise_jsIndexOf_lt (l : List String) (h : l.Nodup) :
    l.Pairwise (fun a b => jsIndexOf l a < jsIndexOf l b) := by
  induction l with
  | nil => exact List.Pairwise.nil
  | cons c t ih =>
    obtain ⟨hcnot, htd⟩ := List.nodup_cons.mp h
    refine List.Pairwise.cons ?_ ?_
    · intro b hb
      have hbne : b ≠ c := fun he => hcnot (he ▸ hb)
      rw [jsIndexOf_head, jsIndexOf_cons_mem c b t hb hbne]
      have := jsIndexOf_nonneg t b hb
      omega
    · refine List.Pairwise.imp_of_mem ?_ (ih htd)
      intro a b ha hb hr
      have hane : a ≠ c := fun he => hcnot (he ▸ ha)
      have hbne : b ≠ c := fun he => hcnot (he ▸ hb)
      rw [jsIndexOf_cons_mem c a t ha hane, jsIndexOf_cons_mem c b t hb hbne]
      omega

/-- C7: for every completion order of the per-model pipelines (any
permutation of the duplicate-free model-selection list), the re-sorted final
model-results list equals the results processed in the original
model-selection order — completion timing does not leak into the output
ordering. -/
theorem results_in_selection_order (prompt : String) (config : Config)
    (modelNames : List String) (numSamples : ℕ) (temperature : ℚ)
    (brainstorm shouldSynthesise : Bool) (oracle : String → ModelOracle)
    (completedOrder : List String) (synthCall : Except String String)
    (hnodup : modelNames.Nodup) (hperm : completedOrder.Perm modelNames) :
    (runQueryCollect prompt config modelNames numSamples temperature
        brainstorm shouldSynthesise oracle completedOrder
        synthCall).modelResults =
      modelNames.filterMap (processModel prompt config brainstorm oracle) := by
  have hnamekey : ∀ (a : String) (mr : BonModelResult),
      processModel prompt config brainstorm oracle a = some mr →
      jsIndexOf modelNames mr.modelName = jsIndexOf modelNames a := by
    intro a mr hfa
    rw [processModel_modelName prompt config brainstorm oracle a mr hfa]
  have htargetlt : (modelNames.filterMap
      (processModel prompt config brainstorm oracle)).Pairwise
      (fun x y => jsIndexOf modelNames x.modelName <
        jsIndexOf modelNames y.modelName) := by
    rw [List.pairwise_filterMap]
    refine List.Pairwise.imp ?_ (pairwise_jsIndexOf_lt modelNames hnodup)
    intro a b hab x hx y hy
    rw [hnamekey a x hx, hnamekey b y hy]
    exact hab
  have hsortperm : (sortModelResults modelNames
      (completedOrder.filterMap
        (processModel prompt config brainstorm oracle))).Perm
      (modelNames.filterMap (processModel prompt config brainstorm oracle)) :=
    (List.perm_insertionSort _ _).trans
      (hperm.filterMap (processModel prompt config brainstorm oracle))
  have htargetne : (modelNames.filterMap
      (processModel prompt config brainstorm oracle)).Pairwise
      (fun x y => jsIndexOf modelNames x.modelName ≠
        jsIndexOf modelNames y.modelName) :=
    htargetlt.imp (fun h => ne_of_lt h)
  have hmap1 : ((modelNames.filterMap
      (processModel prompt config brainstorm oracle)).map
      (fun mr => jsIndexOf modelNames mr.modelName)).Nodup :=
    List.pairwise_map.mpr htargetne
  have hmap2 : ((sortModelResults modelNames
      (completedOrder.filterMap
        (processModel prompt config brainstorm oracle))).map
      (fun mr => jsIndexOf modelNames mr.modelName)).Nodup :=
    ((hsortperm.map _).nodup_iff).mpr hmap1
  have hkeysne : (sortModelResults modelNames
      (completedOrder.filterMap
        (processModel prompt config brainstorm oracle))).Pairwise
      (fun x y => jsIndexOf modelNames x.modelName ≠
        jsIndexOf modelNames y.modelName) :=
    List.pairwise_map.mp hmap2
  haveI : IsTotal BonModelResult (fun a b =>
      jsIndexOf modelNames a.modelName ≤ jsIndexOf modelNames b.modelName) :=
    ⟨fun a b => le_total _ _⟩
  haveI : IsTrans BonModelResult (fun a b =>
      jsIndexOf modelNames a.modelName ≤ jsIndexOf modelNames b.modelName) :=
    ⟨fun a b c hab hbc => le_trans hab hbc⟩
  have hsorted_le : (sortModelResults modelNames
      (completedOrder.filterMap
        (processModel prompt config brainstorm oracle))).Pairwise
      (fun a b =>
        jsIndexOf modelNames a.modelName ≤ jsIndexOf modelNames b.modelName) :=
    List.sorted_insertionSort _ _
  have hsorted_lt : (sortModelResults modelNames
      (completedOrder.filterMap
        (processModel prompt config brainstorm oracle))).Pairwise
      (fun x y => jsIndexOf modelNames x.modelName <
        jsIndexOf modelNames y.modelName) :=
    (hsorted_le.and hkeysne).imp
      (fun h => lt_of_le_of_ne h.1 h.2)
  haveI : IsAntisymm BonModelResult (fun x y =>
      jsIndexOf modelNames x.modelName < jsIndexOf modelNames y.modelName) :=
    ⟨fun a b h1 h2 => absurd h2 (not_lt.mpr (le_of_lt h1))⟩
  exact List.eq_of_perm_of_sorted hsortperm hsorted_lt htargetlt

/-- Witness for `results_in_selection_order`: two models completing in
reverse order. -/
theorem results_in_selection_order_witness :
    (["a", "b"] : List String).Nodup ∧
    (["b", "a"] : List String).Perm ["a", "b"] ∧
    (runQueryCollect "p" emptyConfig ["a", "b"] 1 1 false false
        (fun _ => ⟨[⟨QueryStatus.success, some "x", none, 3, some 5⟩],
          none, none⟩)
        ["b", "a"] (.error "x")).modelResults =
      ["a", "b"].filterMap (processModel "p" emptyConfig false
        (fun _ => ⟨[⟨QueryStatus.success, some "x", none, 3, some 5⟩],
          none, none⟩)) :=
  ⟨by decide, List.Perm.swap "a" "b" [],
    results_in_selection_order "p" emptyConfig ["a", "b"] 1 1 false false
      (fun _ => ⟨[⟨QueryStatus.success, some "x", none, 3, some 5⟩],
        none, none⟩)
      ["b", "a"] (.error "x") (by decide) (List.Perm.swap "a" "b" [])⟩
